import Mathlib

/-!
Shallow embedding of `modules/planning/tasks/optimizers/road_graph/trajectory_cost.cc`
(Apollo DP road-graph trajectory scoring engine).

Modelling conventions:
* C++ `double` is modelled as `ℚ` (exact arithmetic; the claims under study are
  structural/algorithmic, not about floating-point rounding).
* External collaborators that are out of scope for this translation unit
  (the math library's `exp`, `sqrt`, `Sigmoid`, `atan`, `atan2`, angle
  normalization, `Vec2d::rotate`, `Box2d::DistanceTo`, the reference line,
  obstacle prediction and the speed profile) are abstracted as function-valued
  parameters, bundled in `Env` / `ReferenceLine` / `Obstacle` / `SpeedData`.
* The `ComparableCost` type lives in `comparable_cost.h`, which is not part of
  the sources here; its combine and compare operations are modelled from the
  spec (marked `Modelled from the spec:` below).
-/

/-- Vehicle geometry parameters (`common::VehicleParam`), external input. -/
structure VehicleParam where
  front_edge_to_center : ℚ
  back_edge_to_center : ℚ
  left_edge_to_center : ℚ
  right_edge_to_center : ℚ
  length : ℚ
  width : ℚ
deriving DecidableEq

/-- The slice of `DpPolyPathConfig` read by `trajectory_cost.cc`. -/
structure DpPolyPathConfig where
  path_resolution : ℚ
  eval_time_interval : ℚ
  path_l_cost : ℚ
  path_dl_cost : ℚ
  path_ddl_cost : ℚ
  path_l_cost_param_l0 : ℚ
  path_l_cost_param_b : ℚ
  path_l_cost_param_k : ℚ
  path_end_l_cost : ℚ
  obstacle_collision_cost : ℚ
  obstacle_collision_distance : ℚ
  obstacle_ignore_distance : ℚ
  obstacle_risk_distance : ℚ
deriving DecidableEq

/-- The gflags read by `trajectory_cost.cc` (`planning_gflags`). -/
structure PlanningFlags where
  lateral_ignore_buffer : ℚ
  prediction_total_time : ℚ
deriving DecidableEq

/-- A station-lateral point (`common::SLPoint`). -/
structure SLPoint where
  s : ℚ
  l : ℚ
deriving DecidableEq

/-- A station-lateral boundary (`SLBoundary`). -/
structure SLBoundary where
  start_s : ℚ
  end_s : ℚ
  start_l : ℚ
  end_l : ℚ
deriving DecidableEq

/-- An oriented rectangle (`common::math::Box2d`): center, heading, length, width. -/
structure Box2d where
  center_x : ℚ
  center_y : ℚ
  heading : ℚ
  length : ℚ
  width : ℚ
deriving DecidableEq

def Box2d.zero : Box2d := ⟨0, 0, 0, 0, 0⟩

/-- External mathematical and geometric collaborators (math library functions
used by `trajectory_cost.cc` but defined outside this translation unit).
They are abstract function parameters of the embedding. -/
structure Env where
  exp : ℚ → ℚ
  sqrt : ℚ → ℚ
  sigmoid : ℚ → ℚ
  atan : ℚ → ℚ
  atan2 : ℚ → ℚ → ℚ
  normalizeAngle : ℚ → ℚ
  rotateVec : ℚ × ℚ → ℚ → ℚ × ℚ
  boxDistance : Box2d → Box2d → ℚ

/-- The reference line collaborator: lane widths, SL-to-Cartesian conversion,
reference point heading and curvature at a station. -/
structure ReferenceLine where
  laneWidth : ℚ → ℚ × ℚ
  slToXY : SLPoint → ℚ × ℚ
  refPointHeading : ℚ → ℚ
  refPointKappa : ℚ → ℚ

/-- The obstacle collaborator, as consumed by `trajectory_cost.cc`:
classification predicates, the perceived SL boundary, and the predicted
bounding box at a time (the composition
`GetBoundingBox(GetPointAtTime(t))`, both external). -/
structure Obstacle where
  isIgnore : Bool
  hasStopDecision : Bool
  isVirtual : Bool
  isStatic : Bool
  isBicycleOrPedestrian : Bool
  perceptionSLBoundary : SLBoundary
  boundingBoxAtTime : ℚ → Box2d

/-- The heuristic speed profile (`SpeedData`): total time and the interpolated
station at a time (`EvaluateByTime(t).s()`). -/
structure SpeedData where
  totalTime : ℚ
  evalSAtTime : ℚ → ℚ

/-- A quintic polynomial curve is consumed only through
`Evaluate(order, param)`; it is modelled as that evaluation function. -/
def Curve : Type := ℕ → ℚ → ℚ

/-- Modelled from the spec: the Comparable Cost data type of §3
(`comparable_cost.h` is not among the sources): two infeasibility flags and
two scalar penalties. -/
structure ComparableCost where
  has_collision : Bool
  out_of_boundary : Bool
  smoothness_cost : ℚ
  safety_cost : ℚ
deriving DecidableEq

/-- The default-constructed cost: flags clear, scalars zero. -/
def ComparableCost.zero : ComparableCost :=
  { has_collision := false, out_of_boundary := false
    smoothness_cost := 0, safety_cost := 0 }

/-- Modelled from the spec: the in-place combine operator of §3
("Two costs combine by logical-OR on flags and arithmetic sum on scalars"),
`comparable_cost.h` being outside the sources. -/
def ComparableCost.add (a b : ComparableCost) : ComparableCost :=
  { has_collision := a.has_collision || b.has_collision
    out_of_boundary := a.out_of_boundary || b.out_of_boundary
    smoothness_cost := a.smoothness_cost + b.smoothness_cost
    safety_cost := a.safety_cost + b.safety_cost }

/-- Modelled from the spec: the total-order comparison of §3/§8
("`has_collision` dominates `out_of_boundary`, which dominates the scalar sum
`smoothness_cost + safety_cost`"), `comparable_cost.h` being outside the
sources. `a.worseThan b` means `a` compares strictly worse than `b`. -/
def ComparableCost.worseThan (a b : ComparableCost) : Bool :=
  if a.has_collision != b.has_collision then a.has_collision
  else if a.out_of_boundary != b.out_of_boundary then a.out_of_boundary
  else decide (b.smoothness_cost + b.safety_cost < a.smoothness_cost + a.safety_cost)

/-- Number of iterations of the C++ loop
`for (double s = 0.0; s < len; s += res)` under exact arithmetic, for
`res > 0`: the iterates are exactly the stations `k * res` with
`(k : ℚ) * res < len` (see `numStrictSamples_spec`). -/
def numStrictSamples (len res : ℚ) : ℕ := (Int.ceil (len / res)).toNat

/-- Number of iterations of the C++ loop
`for (double s = start; s <= end; s += res)` under exact arithmetic, for
`res > 0`: the iterates are exactly the stations `start + k * res` with
`(k : ℚ) * res ≤ end - start` (see `numInclSamples_spec`). -/
def numInclSamples (len res : ℚ) : ℕ :=
  if len < 0 then 0 else (Int.floor (len / res)).toNat + 1

/-- The per-instance engine state built by the `TrajectoryCost` constructor:
borrowed collaborators plus the two obstacle caches. -/
structure TrajectoryCost where
  config : DpPolyPathConfig
  flags : PlanningFlags
  reference_line : ReferenceLine
  is_change_lane_path : Bool
  vehicle_param : VehicleParam
  heuristic_speed_data : SpeedData
  init_sl_point : SLPoint
  adc_sl_boundary : SLBoundary
  num_of_time_stamps : ℕ
  static_obstacle_sl_boundaries : List SLBoundary
  dynamic_obstacle_boxes : List (List Box2d)

/-- `Box2d(b.center, b.heading, b.length + kBuff, b.width + kBuff)` with
`kBuff = 0.5`, as built in the constructor's dynamic-obstacle branch. -/
def expandObstacleBox (b : Box2d) : Box2d :=
  { b with length := b.length + 1/2, width := b.width + 1/2 }

/-- The constructor's obstacle preclassification step for one obstacle:
skip if ignorable, has a stop decision, is laterally unreachable, or is
virtual; otherwise append either an SL-boundary snapshot (static, bicycle,
pedestrian) or the time-indexed sequence of expanded predicted boxes
(dynamic), with time steps `t = 0, ..., num_of_time_stamps`. -/
def classifyObstacle (cfg : DpPolyPathConfig) (fl : PlanningFlags)
    (vehicle_param : VehicleParam) (init_sl_point : SLPoint) (num : ℕ)
    (acc : List SLBoundary × List (List Box2d)) (ob : Obstacle) :
    List SLBoundary × List (List Box2d) :=
  if ob.isIgnore then acc
  else if ob.hasStopDecision then acc
  else
    let sl_boundary := ob.perceptionSLBoundary
    let adc_left_l := init_sl_point.l + vehicle_param.left_edge_to_center
    let adc_right_l := init_sl_point.l - vehicle_param.right_edge_to_center
    if adc_left_l + fl.lateral_ignore_buffer < sl_boundary.start_l ∨
        adc_right_l - fl.lateral_ignore_buffer > sl_boundary.end_l then acc
    else if ob.isVirtual then acc
    else if ob.isStatic || ob.isBicycleOrPedestrian then
      (acc.1 ++ [sl_boundary], acc.2)
    else
      (acc.1,
       acc.2 ++ [(List.range (num + 1)).map
         (fun (t : ℕ) => expandObstacleBox (ob.boundingBoxAtTime ((t : ℚ) * cfg.eval_time_interval)))])

/-- The `TrajectoryCost` constructor: computes
`num_of_time_stamps = floor(min(speed total time, prediction horizon) / eval_time_interval)`
and folds the preclassification step over the obstacle list to build the two
read-only caches. -/
def TrajectoryCost.construct (cfg : DpPolyPathConfig) (fl : PlanningFlags)
    (reference_line : ReferenceLine) (is_change_lane_path : Bool)
    (obstacles : List Obstacle) (vehicle_param : VehicleParam)
    (heuristic_speed_data : SpeedData) (init_sl_point : SLPoint)
    (adc_sl_boundary : SLBoundary) : TrajectoryCost :=
  let total_time := min heuristic_speed_data.totalTime fl.prediction_total_time
  let num : ℕ := (Int.floor (total_time / cfg.eval_time_interval)).toNat
  let caches := obstacles.foldl
    (classifyObstacle cfg fl vehicle_param init_sl_point num) ([], [])
  { config := cfg, flags := fl, reference_line := reference_line
    is_change_lane_path := is_change_lane_path, vehicle_param := vehicle_param
    heuristic_speed_data := heuristic_speed_data, init_sl_point := init_sl_point
    adc_sl_boundary := adc_sl_boundary, num_of_time_stamps := num
    static_obstacle_sl_boundaries := caches.1, dynamic_obstacle_boxes := caches.2 }

/-- The `quasi_softmax` closure of `CalculatePathCost`:
`(b + exp(-k (x - l0))) / (1 + exp(-k (x - l0)))` with `l0, b, k` from the
configuration. -/
def quasiSoftmax (env : Env) (cfg : DpPolyPathConfig) (x : ℚ) : ℚ :=
  let l0 := cfg.path_l_cost_param_l0
  let b := cfg.path_l_cost_param_b
  let k := cfg.path_l_cost_param_k
  (b + env.exp (-k * (x - l0))) / (1 + env.exp (-k * (x - l0)))

/-- `TrajectoryCost::IsOffRoad`: swept front/rear centers (rear-axle point
rotated by `atan(dl)`) against lane half-widths widened by the half-diagonal
radius plus a buffer, ignoring samples within 5.0 of the initial station.
(The global vehicle configuration it reads is taken to coincide with the
stored `vehicle_param`; the `is_change_lane_path` argument is unused by the
source body as well.) -/
def TrajectoryCost.IsOffRoad (env : Env) (tc : TrajectoryCost) (ref_s l dl : ℚ)
    ( _is_change_lane_path : Bool) : Bool :=
  if ref_s - tc.init_sl_point.s < 5 then false
  else
    let rear_center : ℚ × ℚ := (0, l)
    let param := tc.vehicle_param
    let vec_to_center : ℚ × ℚ :=
      ((param.front_edge_to_center - param.back_edge_to_center) / 2,
       (param.left_edge_to_center - param.right_edge_to_center) / 2)
    let rear_center_to_center := env.rotateVec vec_to_center (env.atan dl)
    let center : ℚ × ℚ := (rear_center.1 + rear_center_to_center.1,
                           rear_center.2 + rear_center_to_center.2)
    let front_center : ℚ × ℚ := (center.1 + rear_center_to_center.1,
                                 center.2 + rear_center_to_center.2)
    let buffer : ℚ := 1/10
    let r_w := (param.left_edge_to_center + param.right_edge_to_center) / 2
    let r_l := param.back_edge_to_center
    let r := env.sqrt (r_w * r_w + r_l * r_l)
    let widths := tc.reference_line.laneWidth ref_s
    let left_bound := max (tc.init_sl_point.l + r + buffer) widths.1
    let right_bound := min (tc.init_sl_point.l - r - buffer) (-widths.2)
    if rear_center.2 + r + buffer / 2 > left_bound ∨
        rear_center.2 - r - buffer / 2 < right_bound then true
    else if front_center.2 + r + buffer / 2 > left_bound ∨
        front_center.2 - r - buffer / 2 < right_bound then true
    else false

/-- One iteration of the `CalculatePathCost` sampling loop at station
`curve_s`, threading the running scalar sum and the out-of-boundary flag:
adds `l² w_l quasiSoftmax(|l|)`, checks `IsOffRoad`, adds `dl² w_dl`, adds
`ddl² w_ddl`. -/
def pathCostStep (env : Env) (tc : TrajectoryCost) (curve : Curve)
    (start_s : ℚ) (acc : ℚ × Bool) (curve_s : ℚ) : ℚ × Bool :=
  let l := curve 0 curve_s
  let c0 := acc.1 + l * l * tc.config.path_l_cost * quasiSoftmax env tc.config |l|
  let dl := |curve 1 curve_s|
  let oob := acc.2 || tc.IsOffRoad env (curve_s + start_s) l dl tc.is_change_lane_path
  let c1 := c0 + dl * dl * tc.config.path_dl_cost
  let ddl := |curve 2 curve_s|
  let c2 := c1 + ddl * ddl * tc.config.path_ddl_cost
  (c2, oob)

/-- `TrajectoryCost::CalculatePathCost`: the sampling loop over stations
`0, res, 2·res, ...` strictly below `end_s - start_s`, the final scaling of
the scalar sum by the resolution, and the terminal-level end-offset term
`sqrt(end_l - init_l / 2) · path_end_l_cost` added when
`curr_level == total_level`. Only `smoothness_cost` and `out_of_boundary`
are produced. -/
def TrajectoryCost.CalculatePathCost (env : Env) (tc : TrajectoryCost)
    (curve : Curve) (start_s end_s : ℚ) (curr_level total_level : ℕ) :
    ComparableCost :=
  let res := tc.config.path_resolution
  let n := numStrictSamples (end_s - start_s) res
  let looped := (List.range n).foldl
    (fun (acc : ℚ × Bool) (k : ℕ) => pathCostStep env tc curve start_s acc ((k : ℚ) * res))
    (0, false)
  let path_cost := looped.1 * res
  let path_cost :=
    if curr_level = total_level then
      path_cost +
        env.sqrt (curve 0 (end_s - start_s) - tc.init_sl_point.l / 2) *
          tc.config.path_end_l_cost
    else path_cost
  { has_collision := false, out_of_boundary := looped.2
    smoothness_cost := path_cost, safety_cost := 0 }

/-- `TrajectoryCost::GetCostFromObsSL`: the per-sample cost of the ego at
`(adc_s, adc_l)` against one static SL boundary — degenerate straddling
boundaries (`start_l · end_l ≤ 0`) and laterally unreachable boundaries give
the zero cost; otherwise the collision flag is set iff ego and obstacle
extents overlap longitudinally and laterally (lateral test with 0.1
tolerance); obstacles behind the ego front edge are returned before any
penalty; otherwise a sigmoid penalty is added when the lateral clearance is
under 0.6. -/
def TrajectoryCost.GetCostFromObsSL (env : Env) (tc : TrajectoryCost)
    (adc_s adc_l : ℚ) (obs_sl_boundary : SLBoundary) : ComparableCost :=
  let vehicle_param := tc.vehicle_param
  if obs_sl_boundary.start_l * obs_sl_boundary.end_l ≤ 0 then ComparableCost.zero
  else
    let adc_front_s := adc_s + vehicle_param.front_edge_to_center
    let adc_end_s := adc_s - vehicle_param.back_edge_to_center
    let adc_left_l := adc_l + vehicle_param.left_edge_to_center
    let adc_right_l := adc_l - vehicle_param.right_edge_to_center
    if adc_left_l + tc.flags.lateral_ignore_buffer < obs_sl_boundary.start_l ∨
        adc_right_l - tc.flags.lateral_ignore_buffer > obs_sl_boundary.end_l then
      ComparableCost.zero
    else
      let no_overlap : Bool :=
        (decide (adc_front_s < obs_sl_boundary.start_s) ||
         decide (adc_end_s > obs_sl_boundary.end_s)) ||
        (decide (adc_left_l + 1/10 < obs_sl_boundary.start_l) ||
         decide (adc_right_l - 1/10 > obs_sl_boundary.end_l))
      let c1 := { ComparableCost.zero with has_collision := !no_overlap }
      if adc_front_s > obs_sl_boundary.end_s then c1
      else
        let delta_l := max (adc_right_l - obs_sl_boundary.end_l)
                           (obs_sl_boundary.start_l - adc_left_l)
        if delta_l < 3/5 then
          { c1 with safety_cost := c1.safety_cost +
              tc.config.obstacle_collision_cost *
                env.sigmoid (tc.config.obstacle_collision_distance - delta_l) }
        else c1

/-- `TrajectoryCost::CalculateStaticObstacleCost`: samples stations
`start_s, start_s + res, ...` up to and including `end_s`, combines the
per-boundary costs of `GetCostFromObsSL` at each sample, then scales the
accumulated `safety_cost` by the resolution. -/
def TrajectoryCost.CalculateStaticObstacleCost (env : Env) (tc : TrajectoryCost)
    (curve : Curve) (start_s end_s : ℚ) : ComparableCost :=
  let res := tc.config.path_resolution
  let n := numInclSamples (end_s - start_s) res
  let obstacle_cost := (List.range n).foldl
    (fun (acc : ComparableCost) (k : ℕ) =>
      let curr_s := start_s + (k : ℚ) * res
      let curr_l := curve 0 (curr_s - start_s)
      tc.static_obstacle_sl_boundaries.foldl
        (fun c b => c.add (tc.GetCostFromObsSL env curr_s curr_l b)) acc)
    ComparableCost.zero
  { obstacle_cost with safety_cost := obstacle_cost.safety_cost * res }

/-- `TrajectoryCost::GetCostBetweenObsBoxes`: distance above the configured
ignore distance gives the zero cost; otherwise the safety cost is
`obstacle_collision_cost · Sigmoid(obstacle_collision_distance - d)` plus
`20.0 · Sigmoid(obstacle_risk_distance - d)` (the risk weight is the literal
constant 20.0 in the source). -/
def TrajectoryCost.GetCostBetweenObsBoxes (env : Env) (tc : TrajectoryCost)
    (ego_box obstacle_box : Box2d) : ComparableCost :=
  let distance := env.boxDistance obstacle_box ego_box
  if distance > tc.config.obstacle_ignore_distance then ComparableCost.zero
  else
    let sc := tc.config.obstacle_collision_cost *
        env.sigmoid (tc.config.obstacle_collision_distance - distance)
    let sc := sc + 20 * env.sigmoid (tc.config.obstacle_risk_distance - distance)
    { ComparableCost.zero with safety_cost := sc }

/-- `TrajectoryCost::GetBoxFromSLPoint`: Cartesian center via the reference
line, heading `normalize(atan2(dl, 1 - kappa·l) + ref heading)`, vehicle
length and width. -/
def TrajectoryCost.GetBoxFromSLPoint (env : Env) (tc : TrajectoryCost)
    (sl : SLPoint) (dl : ℚ) : Box2d :=
  let xy := tc.reference_line.slToXY sl
  let one_minus_kappa_r_d := 1 - tc.reference_line.refPointKappa sl.s * sl.l
  let delta_theta := env.atan2 dl one_minus_kappa_r_d
  let theta := env.normalizeAngle (delta_theta + tc.reference_line.refPointHeading sl.s)
  { center_x := xy.1, center_y := xy.2, heading := theta
    length := tc.vehicle_param.length, width := tc.vehicle_param.width }

/-- The ego station evaluated at time index `index` of the dynamic-cost loop:
the interpolated speed-profile station at `index · eval_time_interval` plus
the initial station. -/
def TrajectoryCost.stationAt (tc : TrajectoryCost) (index : ℕ) : ℚ :=
  tc.heuristic_speed_data.evalSAtTime ((index : ℚ) * tc.config.eval_time_interval) +
    tc.init_sl_point.s

/-- The ego footprint built at time index `index` of the dynamic-cost loop. -/
def TrajectoryCost.egoBoxAt (env : Env) (tc : TrajectoryCost) (curve : Curve)
    (start_s : ℚ) (index : ℕ) : Box2d :=
  let ref_s := tc.stationAt index
  let s := ref_s - start_s
  tc.GetBoxFromSLPoint env { s := ref_s, l := curve 0 s } (curve 1 s)

/-- The body of the dynamic-cost loop over the remaining time indices,
with `continue` on a station before `start_s` and `break` on a station
after `end_s`; at an evaluated index the ego box is combined against every
cached trajectory's box at that same index. -/
def dynamicLoop (env : Env) (tc : TrajectoryCost) (curve : Curve)
    (start_s end_s : ℚ) : List ℕ → ComparableCost → ComparableCost
  | [], acc => acc
  | index :: rest, acc =>
    let ref_s := tc.stationAt index
    if ref_s < start_s then dynamicLoop env tc curve start_s end_s rest acc
    else if ref_s > end_s then acc
    else
      let ego_box := tc.egoBoxAt env curve start_s index
      let acc2 := tc.dynamic_obstacle_boxes.foldl
        (fun c traj => c.add (tc.GetCostBetweenObsBoxes env ego_box (traj.getD index Box2d.zero)))
        acc
      dynamicLoop env tc curve start_s end_s rest acc2

/-- `TrajectoryCost::CalculateDynamicObstacleCost`: early return on an empty
dynamic cache; otherwise the loop over indices `0, ..., num_of_time_stamps - 1`
followed by scaling of `safety_cost` by `eval_time_interval · 1e-6`. -/
def TrajectoryCost.CalculateDynamicObstacleCost (env : Env) (tc : TrajectoryCost)
    (curve : Curve) (start_s end_s : ℚ) : ComparableCost :=
  if tc.dynamic_obstacle_boxes.isEmpty then ComparableCost.zero
  else
    let acc := dynamicLoop env tc curve start_s end_s
      (List.range tc.num_of_time_stamps) ComparableCost.zero
    { acc with safety_cost :=
        acc.safety_cost * (tc.config.eval_time_interval * (1/1000000)) }

/-- `TrajectoryCost::Calculate`: the sole entry point, combining the path,
static-obstacle and dynamic-obstacle costs into one Comparable Cost. -/
def TrajectoryCost.Calculate (env : Env) (tc : TrajectoryCost) (curve : Curve)
    (start_s end_s : ℚ) (curr_level total_level : ℕ) : ComparableCost :=
  ((ComparableCost.zero.add
      (tc.CalculatePathCost env curve start_s end_s curr_level total_level)).add
    (tc.CalculateStaticObstacleCost env curve start_s end_s)).add
    (tc.CalculateDynamicObstacleCost env curve start_s end_s)

/-- The safety cost accumulated at one evaluated time index of the dynamic
loop: the ego footprint at that index combined against every cached
trajectory's footprint at the same index. -/
def dynStepSafety (env : Env) (tc : TrajectoryCost) (curve : Curve)
    (start_s : ℚ) (index : ℕ) : ℚ :=
  (tc.dynamic_obstacle_boxes.map
    (fun traj => (tc.GetCostBetweenObsBoxes env (tc.egoBoxAt env curve start_s index)
        (traj.getD index Box2d.zero)).safety_cost)).sum

/-- A concrete environment for witness instantiations: external math
functions chosen as simple computable stand-ins. -/
def env0 : Env :=
  { exp := fun _ => 0, sqrt := fun _ => 0, sigmoid := fun _ => 0
    atan := fun _ => 0, atan2 := fun _ _ => 0, normalizeAngle := fun x => x
    rotateVec := fun v _ => v, boxDistance := fun _ _ => 0 }

/-- A concrete reference line for witness instantiations. -/
def refLine0 : ReferenceLine :=
  { laneWidth := fun _ => (3, 3), slToXY := fun p => (p.s, p.l)
    refPointHeading := fun _ => 0, refPointKappa := fun _ => 0 }

/-- A concrete vehicle parameter set for witness instantiations. -/
def vp1 : VehicleParam :=
  { front_edge_to_center := 1, back_edge_to_center := 1
    left_edge_to_center := 1, right_edge_to_center := 1, length := 2, width := 2 }

/-- A concrete configuration for witness instantiations. -/
def cfg1 : DpPolyPathConfig :=
  { path_resolution := 1, eval_time_interval := 1, path_l_cost := 1
    path_dl_cost := 1, path_ddl_cost := 1, path_l_cost_param_l0 := 0
    path_l_cost_param_b := 0, path_l_cost_param_k := 0, path_end_l_cost := 1
    obstacle_collision_cost := 1, obstacle_collision_distance := 1
    obstacle_ignore_distance := 1, obstacle_risk_distance := 1 }

/-- Concrete gflags for witness instantiations. -/
def flags1 : PlanningFlags := { lateral_ignore_buffer := 10, prediction_total_time := 5 }

/-- A concrete speed profile for witness instantiations (station equals time). -/
def speed0 : SpeedData := { totalTime := 5, evalSAtTime := fun t => t }

/-- A concrete engine state for witness instantiations. -/
def tc0 : TrajectoryCost :=
  { config := cfg1, flags := flags1, reference_line := refLine0
    is_change_lane_path := false, vehicle_param := vp1
    heuristic_speed_data := speed0, init_sl_point := { s := 0, l := 0 }
    adc_sl_boundary := { start_s := 0, end_s := 0, start_l := 0, end_l := 0 }
    num_of_time_stamps := 2, static_obstacle_sl_boundaries := []
    dynamic_obstacle_boxes := [[Box2d.zero, Box2d.zero, Box2d.zero]] }

/-- A concrete curve for witness instantiations: all evaluations equal 1. -/
def curve0 : Curve := fun _ _ => 1

/-- A configuration whose every field equals 7, used to exhibit which
coefficients of `GetCostBetweenObsBoxes` are configured and which are
hardcoded. -/
def cfg7 : DpPolyPathConfig :=
  { path_resolution := 7, eval_time_interval := 7, path_l_cost := 7
    path_dl_cost := 7, path_ddl_cost := 7, path_l_cost_param_l0 := 7
    path_l_cost_param_b := 7, path_l_cost_param_k := 7, path_end_l_cost := 7
    obstacle_collision_cost := 7, obstacle_collision_distance := 7
    obstacle_ignore_distance := 7, obstacle_risk_distance := 7 }

/-- An environment with identity sigmoid and a constant box distance of 1,
used with `cfg7`. -/
def env7 : Env :=
  { exp := fun _ => 0, sqrt := fun _ => 0, sigmoid := fun x => x
    atan := fun _ => 0, atan2 := fun _ _ => 0, normalizeAngle := fun x => x
    rotateVec := fun v _ => v, boxDistance := fun _ _ => 1 }

/-- The engine state with the all-sevens configuration. -/
def tc7 : TrajectoryCost :=
  { config := cfg7, flags := { lateral_ignore_buffer := 7, prediction_total_time := 7 }
    reference_line := refLine0, is_change_lane_path := false, vehicle_param := vp1
    heuristic_speed_data := speed0, init_sl_point := { s := 0, l := 0 }
    adc_sl_boundary := { start_s := 0, end_s := 0, start_l := 0, end_l := 0 }
    num_of_time_stamps := 2, static_obstacle_sl_boundaries := []
    dynamic_obstacle_boxes := [[Box2d.zero, Box2d.zero, Box2d.zero]] }

/-- For positive resolution, the strict sampling loop visits exactly the
stations `k * res` with `k * res < len`: index `k` is visited iff
`(k : ℚ) * res < len`. -/
theorem numStrictSamples_spec (len res : ℚ) (hres : 0 < res) (k : ℕ) :
    k < numStrictSamples len res ↔ (k : ℚ) * res < len := by
  unfold numStrictSamples
  rw [Int.lt_toNat, Int.lt_ceil, lt_div_iff₀ hres]
  norm_cast

/-- Projections through a fold of cost combinations: a fold that only
combines costs with Boolean-false `out_of_boundary` contributions preserves
the accumulator's `out_of_boundary`. -/
theorem foldl_add_oob {α : Type} (f : α → ComparableCost)
    (hf : ∀ x, (f x).out_of_boundary = false) :
    ∀ (l : List α) (acc : ComparableCost),
      (l.foldl (fun c x => c.add (f x)) acc).out_of_boundary = acc.out_of_boundary := by
  intro l
  induction l with
  | nil => intro acc; rfl
  | cons x xs ih =>
    intro acc
    rw [List.foldl_cons, ih]
    simp [ComparableCost.add, hf x]

/-- A fold that only combines costs with Boolean-false `has_collision`
contributions preserves the accumulator's `has_collision`. -/
theorem foldl_add_collision {α : Type} (f : α → ComparableCost)
    (hf : ∀ x, (f x).has_collision = false) :
    ∀ (l : List α) (acc : ComparableCost),
      (l.foldl (fun c x => c.add (f x)) acc).has_collision = acc.has_collision := by
  intro l
  induction l with
  | nil => intro acc; rfl
  | cons x xs ih =>
    intro acc
    rw [List.foldl_cons, ih]
    simp [ComparableCost.add, hf x]

/-- A fold of cost combinations accumulates exactly the sum of the
contributed safety costs. -/
theorem foldl_add_safety {α : Type} (f : α → ComparableCost) :
    ∀ (l : List α) (acc : ComparableCost),
      (l.foldl (fun c x => c.add (f x)) acc).safety_cost =
        acc.safety_cost + (l.map (fun x => (f x).safety_cost)).sum := by
  intro l
  induction l with
  | nil => intro acc; simp
  | cons x xs ih =>
    intro acc
    rw [List.foldl_cons, ih]
    simp [ComparableCost.add]
    ring

/-- Claim C1: for every curve, `start_s`, `end_s`, `curr_level` and
`total_level`, `Calculate` returns exactly the combination of
`CalculatePathCost`, `CalculateStaticObstacleCost` and
`CalculateDynamicObstacleCost` under the Comparable Cost combination rule:
logical-OR of the `has_collision` and `out_of_boundary` flags, arithmetic sum
of the `smoothness_cost` and `safety_cost` scalars. -/
theorem Calculate_eq_combination (env : Env) (tc : TrajectoryCost)
    (curve : Curve) (start_s end_s : ℚ) (curr_level total_level : ℕ) :
    tc.Calculate env curve start_s end_s curr_level total_level =
      { has_collision :=
          (tc.CalculatePathCost env curve start_s end_s curr_level total_level).has_collision ||
          (tc.CalculateStaticObstacleCost env curve start_s end_s).has_collision ||
          (tc.CalculateDynamicObstacleCost env curve start_s end_s).has_collision
        out_of_boundary :=
          (tc.CalculatePathCost env curve start_s end_s curr_level total_level).out_of_boundary ||
          (tc.CalculateStaticObstacleCost env curve start_s end_s).out_of_boundary ||
          (tc.CalculateDynamicObstacleCost env curve start_s end_s).out_of_boundary
        smoothness_cost :=
          (tc.CalculatePathCost env curve start_s end_s curr_level total_level).smoothness_cost +
          (tc.CalculateStaticObstacleCost env curve start_s end_s).smoothness_cost +
          (tc.CalculateDynamicObstacleCost env curve start_s end_s).smoothness_cost
        safety_cost :=
          (tc.CalculatePathCost env curve start_s end_s curr_level total_level).safety_cost +
          (tc.CalculateStaticObstacleCost env curve start_s end_s).safety_cost +
          (tc.CalculateDynamicObstacleCost env curve start_s end_s).safety_cost } := by
  simp [TrajectoryCost.Calculate, ComparableCost.add, ComparableCost.zero]

/-- Claim C9: the modelled Comparable Cost comparison is a total
lexicographic order: a cost with `has_collision` set compares worse than one
without, regardless of every other field; among equal `has_collision`, a cost
with `out_of_boundary` set compares worse; among equal flags, the order is
that of the scalar sum `smoothness_cost + safety_cost`; and any two costs are
comparable (one is worse, or they agree on flags and on the scalar sum). -/
theorem worseThan_lex_total_order (a b : ComparableCost) :
    (a.has_collision = true ∧ b.has_collision = false →
      a.worseThan b = true ∧ b.worseThan a = false) ∧
    (a.has_collision = b.has_collision ∧ a.out_of_boundary = true ∧
        b.out_of_boundary = false →
      a.worseThan b = true ∧ b.worseThan a = false) ∧
    (a.has_collision = b.has_collision ∧ a.out_of_boundary = b.out_of_boundary →
      (a.worseThan b = true ↔
        b.smoothness_cost + b.safety_cost < a.smoothness_cost + a.safety_cost)) ∧
    (a.worseThan b = true ∨ b.worseThan a = true ∨
      (a.has_collision = b.has_collision ∧ a.out_of_boundary = b.out_of_boundary ∧
       a.smoothness_cost + a.safety_cost = b.smoothness_cost + b.safety_cost)) := by
  obtain ⟨ahc, aoob, asm, asf⟩ := a
  obtain ⟨bhc, boob, bsm, bsf⟩ := b
  refine ⟨?_, ?_, ?_, ?_⟩
  · rintro ⟨h1, h2⟩
    simp_all [ComparableCost.worseThan]
  · rintro ⟨h1, h2, h3⟩
    simp_all [ComparableCost.worseThan]
  · rintro ⟨h1, h2⟩
    simp_all [ComparableCost.worseThan]
  · by_cases h1 : ahc = bhc
    · by_cases h2 : aoob = boob
      · rcases lt_trichotomy (asm + asf) (bsm + bsf) with h | h | h
        · right; left
          simp_all [ComparableCost.worseThan]
        · right; right
          simp_all
        · left
          simp_all [ComparableCost.worseThan]
      · cases aoob <;> cases boob <;> simp_all [ComparableCost.worseThan]
    · cases ahc <;> cases bhc <;> simp_all [ComparableCost.worseThan]

/-- `!decide (x < y) = decide (y ≤ x)` over the rationals. -/
theorem not_decide_lt (x y : ℚ) : (!decide (x < y)) = decide (y ≤ x) := by
  rw [← decide_not]
  exact decide_eq_decide.mpr not_lt

/-- Claim C4: a centerline-straddling static boundary
(`start_l * end_l ≤ 0`) contributes the zero cost in `GetCostFromObsSL` —
no safety penalty and no collision flag — for every ego sample; whereas the
box-vs-box dynamic path has no such skip: whenever the box distance is not
above the ignore distance, the full two-sigmoid penalty accrues no matter
what the boxes look like. -/
theorem straddling_boundary_contributes_nothing (env : Env)
    (tc : TrajectoryCost) (adc_s adc_l : ℚ) (b : SLBoundary)
    (ego obs : Box2d)
    (hstraddle : b.start_l * b.end_l ≤ 0)
    (hnear : ¬ env.boxDistance obs ego > tc.config.obstacle_ignore_distance) :
    tc.GetCostFromObsSL env adc_s adc_l b = ComparableCost.zero ∧
    (tc.GetCostBetweenObsBoxes env ego obs).safety_cost =
      tc.config.obstacle_collision_cost *
        env.sigmoid (tc.config.obstacle_collision_distance - env.boxDistance obs ego) +
      20 * env.sigmoid (tc.config.obstacle_risk_distance - env.boxDistance obs ego) := by
  constructor
  · unfold TrajectoryCost.GetCostFromObsSL
    rw [if_pos hstraddle]
  · unfold TrajectoryCost.GetCostBetweenObsBoxes
    rw [if_neg hnear]

/-- Witness for claim C4: a concrete straddling boundary and a concrete box
pair within the ignore distance. -/
theorem straddling_boundary_contributes_nothing_witness :
    ((-1 : ℚ) * 1 ≤ 0) ∧
    (¬ env0.boxDistance Box2d.zero Box2d.zero > tc0.config.obstacle_ignore_distance) ∧
    (tc0.GetCostFromObsSL env0 0 0 { start_s := 0, end_s := 0, start_l := -1, end_l := 1 } =
        ComparableCost.zero ∧
      (tc0.GetCostBetweenObsBoxes env0 Box2d.zero Box2d.zero).safety_cost =
        tc0.config.obstacle_collision_cost *
          env0.sigmoid (tc0.config.obstacle_collision_distance -
            env0.boxDistance Box2d.zero Box2d.zero) +
        20 * env0.sigmoid (tc0.config.obstacle_risk_distance -
          env0.boxDistance Box2d.zero Box2d.zero)) :=
  ⟨by norm_num, by decide,
   straddling_boundary_contributes_nothing env0 tc0 0 0
     { start_s := 0, end_s := 0, start_l := -1, end_l := 1 } Box2d.zero Box2d.zero
     (by norm_num) (by decide)⟩

/-- Counterexample for claim C8 as stated: with a configuration whose every
field equals 7 (`cfg7`), an identity sigmoid and a box distance of 1, the
safety cost of `GetCostBetweenObsBoxes` evaluates to
`7·(7-1) + 20·(7-1) = 162`: the coefficient of the risk-distance sigmoid is
the hardcoded literal `20.0` of the source, which differs from 7 and hence is
not drawn from the configuration surface (whose values are all 7 here). -/
theorem GetCostBetweenObsBoxes_risk_weight_not_configured :
    (tc7.GetCostBetweenObsBoxes env7 Box2d.zero Box2d.zero).safety_cost =
      7 * ((7 : ℚ) - 1) + 20 * ((7 : ℚ) - 1) ∧ (20 : ℚ) ≠ 7 := by
  constructor
  · simp [TrajectoryCost.GetCostBetweenObsBoxes, env7, tc7, cfg7, ComparableCost.zero]
  · norm_num

/-- Claim C8 (amended): for every pair of footprints, `GetCostBetweenObsBoxes`
returns the zero cost when their distance exceeds the configured
`obstacle_ignore_distance`, and otherwise returns a safety cost of
`obstacle_collision_cost · sigmoid(obstacle_collision_distance - d)` plus
`20.0 · sigmoid(obstacle_risk_distance - d)`, the distances and the collision
weight coming from the configuration and the risk weight being the hardcoded
constant `20.0`. -/
theorem GetCostBetweenObsBoxes_formula (env : Env) (tc : TrajectoryCost)
    (ego obs : Box2d) :
    (env.boxDistance obs ego > tc.config.obstacle_ignore_distance →
      tc.GetCostBetweenObsBoxes env ego obs = ComparableCost.zero) ∧
    (¬ env.boxDistance obs ego > tc.config.obstacle_ignore_distance →
      tc.GetCostBetweenObsBoxes env ego obs =
        { has_collision := false, out_of_boundary := false, smoothness_cost := 0
          safety_cost :=
            tc.config.obstacle_collision_cost *
              env.sigmoid (tc.config.obstacle_collision_distance - env.boxDistance obs ego) +
            20 * env.sigmoid (tc.config.obstacle_risk_distance - env.boxDistance obs ego) }) := by
  constructor
  · intro h
    unfold TrajectoryCost.GetCostBetweenObsBoxes
    rw [if_pos h]
  · intro h
    unfold TrajectoryCost.GetCostBetweenObsBoxes
    rw [if_neg h]
    rfl

/-- Claim C5: in `GetCostFromObsSL`, for a non-degenerate
(`¬ start_l · end_l ≤ 0`), laterally relevant boundary, the collision flag of
the returned cost is set exactly when the ego extents overlap the boundary
longitudinally (`front ≥ obstacle start` and `back ≤ obstacle end`) and
laterally within the 0.1 tolerance; and this holds in particular for an
obstacle lying behind the ego front edge (`end_s < front`), which is skipped
for penalty purposes only: its safety contribution is zero while the
collision flag is still determined by the same overlap test. -/
theorem GetCostFromObsSL_collision_flag (env : Env) (tc : TrajectoryCost)
    (adc_s adc_l : ℚ) (b : SLBoundary)
    (hnd : ¬ b.start_l * b.end_l ≤ 0)
    (hrel : ¬ (adc_l + tc.vehicle_param.left_edge_to_center +
          tc.flags.lateral_ignore_buffer < b.start_l ∨
        adc_l - tc.vehicle_param.right_edge_to_center -
          tc.flags.lateral_ignore_buffer > b.end_l)) :
    (tc.GetCostFromObsSL env adc_s adc_l b).has_collision =
      ((decide (b.start_s ≤ adc_s + tc.vehicle_param.front_edge_to_center) &&
        decide (adc_s - tc.vehicle_param.back_edge_to_center ≤ b.end_s)) &&
       (decide (b.start_l ≤ adc_l + tc.vehicle_param.left_edge_to_center + 1/10) &&
        decide (adc_l - tc.vehicle_param.right_edge_to_center - 1/10 ≤ b.end_l))) ∧
    (adc_s + tc.vehicle_param.front_edge_to_center > b.end_s →
      (tc.GetCostFromObsSL env adc_s adc_l b).safety_cost = 0) := by
  unfold TrajectoryCost.GetCostFromObsSL
  simp only [if_neg hnd, if_neg hrel]
  constructor
  · split
    · simp [Bool.not_or, not_decide_lt, gt_iff_lt]
    · split <;> simp [Bool.not_or, not_decide_lt, gt_iff_lt]
  · intro hbehind
    rw [if_pos hbehind]
    rfl

/-- Witness for claim C5: a boundary that overlaps the ego extents while
lying behind the ego front edge — the collision flag is set and the safety
contribution is zero. -/
theorem GetCostFromObsSL_collision_flag_witness :
    (¬ (1 : ℚ) * 2 ≤ 0) ∧
    (¬ ((0 : ℚ) + tc0.vehicle_param.left_edge_to_center +
          tc0.flags.lateral_ignore_buffer < (1 : ℚ) ∨
        (0 : ℚ) - tc0.vehicle_param.right_edge_to_center -
          tc0.flags.lateral_ignore_buffer > (2 : ℚ))) ∧
    ((tc0.GetCostFromObsSL env0 0 0
        { start_s := -1, end_s := 1/2, start_l := 1, end_l := 2 }).has_collision =
      ((decide ((-1 : ℚ) ≤ 0 + tc0.vehicle_param.front_edge_to_center) &&
        decide ((0 : ℚ) - tc0.vehicle_param.back_edge_to_center ≤ 1/2)) &&
       (decide ((1 : ℚ) ≤ 0 + tc0.vehicle_param.left_edge_to_center + 1/10) &&
        decide ((0 : ℚ) - tc0.vehicle_param.right_edge_to_center - 1/10 ≤ 2))) ∧
     ((0 : ℚ) + tc0.vehicle_param.front_edge_to_center > 1/2 →
       (tc0.GetCostFromObsSL env0 0 0
         { start_s := -1, end_s := 1/2, start_l := 1, end_l := 2 }).safety_cost = 0)) :=
  ⟨by norm_num, by norm_num [tc0, vp1, flags1],
   GetCostFromObsSL_collision_flag env0 tc0 0 0
     { start_s := -1, end_s := 1/2, start_l := 1, end_l := 2 }
     (by norm_num) (by norm_num [tc0, vp1, flags1])⟩

/-- `GetCostBetweenObsBoxes` never sets a flag and never touches the
smoothness cost. -/
theorem GetCostBetweenObsBoxes_only_safety (env : Env) (tc : TrajectoryCost)
    (ego obs : Box2d) :
    (tc.GetCostBetweenObsBoxes env ego obs).has_collision = false ∧
    (tc.GetCostBetweenObsBoxes env ego obs).out_of_boundary = false ∧
    (tc.GetCostBetweenObsBoxes env ego obs).smoothness_cost = 0 := by
  unfold TrajectoryCost.GetCostBetweenObsBoxes
  by_cases h : env.boxDistance obs ego > tc.config.obstacle_ignore_distance
  · simp [h, ComparableCost.zero]
  · simp [h, ComparableCost.zero]

/-- `GetCostFromObsSL` never sets the out-of-boundary flag and never touches
the smoothness cost. -/
theorem GetCostFromObsSL_only_collision_and_safety (env : Env)
    (tc : TrajectoryCost) (adc_s adc_l : ℚ) (b : SLBoundary) :
    (tc.GetCostFromObsSL env adc_s adc_l b).out_of_boundary = false ∧
    (tc.GetCostFromObsSL env adc_s adc_l b).smoothness_cost = 0 := by
  unfold TrajectoryCost.GetCostFromObsSL
  by_cases h1 : b.start_l * b.end_l ≤ 0
  · simp [h1, ComparableCost.zero]
  · simp only [if_neg h1]
    by_cases h2 : (adc_l + tc.vehicle_param.left_edge_to_center +
          tc.flags.lateral_ignore_buffer < b.start_l ∨
        adc_l - tc.vehicle_param.right_edge_to_center -
          tc.flags.lateral_ignore_buffer > b.end_l)
    · simp [h2, ComparableCost.zero]
    · simp only [if_neg h2]
      by_cases h3 : adc_s + tc.vehicle_param.front_edge_to_center > b.end_s
      · simp [h3, ComparableCost.zero]
      · simp only [if_neg h3]
        split <;> simp [ComparableCost.zero]

/-- A fold preserves any projection that every step preserves. -/
theorem foldl_preserves {α β : Type} (p : ComparableCost → β)
    (step : ComparableCost → α → ComparableCost)
    (hstep : ∀ c x, p (step c x) = p c) :
    ∀ (l : List α) (acc : ComparableCost), p (l.foldl step acc) = p acc := by
  intro l
  induction l with
  | nil => intro acc; rfl
  | cons x xs ih =>
    intro acc
    rw [List.foldl_cons, ih, hstep]

/-- The dynamic-cost loop preserves the collision flag of its accumulator. -/
theorem dynamicLoop_preserves_hc (env : Env) (tc : TrajectoryCost)
    (curve : Curve) (start_s end_s : ℚ) :
    ∀ (l : List ℕ) (acc : ComparableCost),
      (dynamicLoop env tc curve start_s end_s l acc).has_collision =
        acc.has_collision := by
  intro l
  induction l with
  | nil => intro acc; rfl
  | cons i rest ih =>
    intro acc
    show (if tc.stationAt i < start_s then
          dynamicLoop env tc curve start_s end_s rest acc
        else if tc.stationAt i > end_s then acc
        else dynamicLoop env tc curve start_s end_s rest
          (tc.dynamic_obstacle_boxes.foldl
            (fun c traj => c.add (tc.GetCostBetweenObsBoxes env
              (tc.egoBoxAt env curve start_s i) (traj.getD i Box2d.zero))) acc)).has_collision
        = acc.has_collision
    split
    · exact ih acc
    · split
      · rfl
      · rw [ih _]
        exact foldl_preserves (fun c => c.has_collision) _
          (fun c traj => by
            simp [ComparableCost.add,
              (GetCostBetweenObsBoxes_only_safety env tc _ _).1])
          tc.dynamic_obstacle_boxes acc

/-- The dynamic-cost loop preserves the out-of-boundary flag of its
accumulator. -/
theorem dynamicLoop_preserves_oob (env : Env) (tc : TrajectoryCost)
    (curve : Curve) (start_s end_s : ℚ) :
    ∀ (l : List ℕ) (acc : ComparableCost),
      (dynamicLoop env tc curve start_s end_s l acc).out_of_boundary =
        acc.out_of_boundary := by
  intro l
  induction l with
  | nil => intro acc; rfl
  | cons i rest ih =>
    intro acc
    show (if tc.stationAt i < start_s then
          dynamicLoop env tc curve start_s end_s rest acc
        else if tc.stationAt i > end_s then acc
        else dynamicLoop env tc curve start_s end_s rest
          (tc.dynamic_obstacle_boxes.foldl
            (fun c traj => c.add (tc.GetCostBetweenObsBoxes env
              (tc.egoBoxAt env curve start_s i) (traj.getD i Box2d.zero))) acc)).out_of_boundary
        = acc.out_of_boundary
    split
    · exact ih acc
    · split
      · rfl
      · rw [ih _]
        exact foldl_preserves (fun c => c.out_of_boundary) _
          (fun c traj => by
            simp [ComparableCost.add,
              (GetCostBetweenObsBoxes_only_safety env tc _ _).2.1])
          tc.dynamic_obstacle_boxes acc

/-- Claim C10: the dynamic obstacle cost never carries a flag
(`GetCostBetweenObsBoxes` only adds to `safety_cost`), and in the combined
result of `Calculate` the collision flag can originate only from the static
SL-boundary overlap check while the out-of-boundary flag can originate only
from the path-cost off-road check. -/
theorem flag_provenance (env : Env) (tc : TrajectoryCost) (curve : Curve)
    (start_s end_s : ℚ) (curr_level total_level : ℕ) (ego obs : Box2d) :
    (tc.CalculateDynamicObstacleCost env curve start_s end_s).has_collision = false ∧
    (tc.CalculateDynamicObstacleCost env curve start_s end_s).out_of_boundary = false ∧
    (tc.GetCostBetweenObsBoxes env ego obs).has_collision = false ∧
    (tc.GetCostBetweenObsBoxes env ego obs).out_of_boundary = false ∧
    (tc.Calculate env curve start_s end_s curr_level total_level).has_collision =
      (tc.CalculateStaticObstacleCost env curve start_s end_s).has_collision ∧
    (tc.Calculate env curve start_s end_s curr_level total_level).out_of_boundary =
      (tc.CalculatePathCost env curve start_s end_s curr_level total_level).out_of_boundary := by
  have hdyn_hc :
      (tc.CalculateDynamicObstacleCost env curve start_s end_s).has_collision = false := by
    unfold TrajectoryCost.CalculateDynamicObstacleCost
    split
    · rfl
    · simpa using dynamicLoop_preserves_hc env tc curve start_s end_s
        (List.range tc.num_of_time_stamps) ComparableCost.zero
  have hdyn_oob :
      (tc.CalculateDynamicObstacleCost env curve start_s end_s).out_of_boundary = false := by
    unfold TrajectoryCost.CalculateDynamicObstacleCost
    split
    · rfl
    · simpa using dynamicLoop_preserves_oob env tc curve start_s end_s
        (List.range tc.num_of_time_stamps) ComparableCost.zero
  have hpath_hc :
      (tc.CalculatePathCost env curve start_s end_s curr_level total_level).has_collision =
        false := by
    unfold TrajectoryCost.CalculatePathCost
    split <;> rfl
  have hstat_oob :
      (tc.CalculateStaticObstacleCost env curve start_s end_s).out_of_boundary = false := by
    unfold TrajectoryCost.CalculateStaticObstacleCost
    have := foldl_preserves (fun c => c.out_of_boundary)
      (fun (acc : ComparableCost) (k : ℕ) =>
        tc.static_obstacle_sl_boundaries.foldl
          (fun c b => c.add (tc.GetCostFromObsSL env
            (start_s + (k : ℚ) * tc.config.path_resolution)
            (curve 0 (start_s + (k : ℚ) * tc.config.path_resolution - start_s)) b)) acc)
      (fun c x => foldl_preserves (fun c => c.out_of_boundary) _
        (fun c2 b => by
          simp [ComparableCost.add,
            (GetCostFromObsSL_only_collision_and_safety env tc _ _ b).1]) _ c)
      (List.range (numInclSamples (end_s - start_s) tc.config.path_resolution))
      ComparableCost.zero
    simpa using this
  refine ⟨hdyn_hc, hdyn_oob,
    (GetCostBetweenObsBoxes_only_safety env tc ego obs).1,
    (GetCostBetweenObsBoxes_only_safety env tc ego obs).2.1, ?_, ?_⟩
  · simp [TrajectoryCost.Calculate, ComparableCost.add, ComparableCost.zero,
      hdyn_hc, hpath_hc]
  · simp [TrajectoryCost.Calculate, ComparableCost.add, ComparableCost.zero,
      hdyn_oob, hstat_oob]

/-- The path-cost sampling fold accumulates the sum of the per-sample
smoothness terms and the disjunction of the per-sample off-road checks. -/
theorem pathCost_foldl_eq (env : Env) (tc : TrajectoryCost) (curve : Curve)
    (start_s res : ℚ) :
    ∀ (n : ℕ) (a : ℚ) (o : Bool),
      (List.range n).foldl
          (fun (acc : ℚ × Bool) (k : ℕ) => pathCostStep env tc curve start_s acc ((k : ℚ) * res))
          (a, o) =
        (a + ((List.range n).map (fun (k : ℕ) =>
            curve 0 ((k : ℚ) * res) * curve 0 ((k : ℚ) * res) * tc.config.path_l_cost *
              quasiSoftmax env tc.config |curve 0 ((k : ℚ) * res)| +
            |curve 1 ((k : ℚ) * res)| * |curve 1 ((k : ℚ) * res)| * tc.config.path_dl_cost +
            |curve 2 ((k : ℚ) * res)| * |curve 2 ((k : ℚ) * res)| * tc.config.path_ddl_cost)).sum,
         o || (List.range n).any (fun (k : ℕ) =>
            tc.IsOffRoad env ((k : ℚ) * res + start_s) (curve 0 ((k : ℚ) * res))
              |curve 1 ((k : ℚ) * res)| tc.is_change_lane_path)) := by
  intro n
  induction n with
  | zero => intro a o; simp
  | succ n ih =>
    intro a o
    rw [List.range_succ, List.foldl_append, List.map_append, List.any_append, ih]
    simp only [List.foldl_cons, List.foldl_nil, List.map_cons, List.map_nil,
      List.any_cons, List.any_nil, pathCostStep]
    rw [Prod.mk.injEq]
    constructor
    · simp only [List.sum_append, List.sum_cons, List.sum_nil]
      ring
    · simp [Bool.or_assoc]

/-- Claim C2: for `start_s ≤ end_s` and positive resolution, the
`smoothness_cost` returned by `CalculatePathCost` equals the sum over the
sample stations `k · res` (for `k` below `numStrictSamples`, i.e. exactly the
stations strictly below `end_s - start_s` by `numStrictSamples_spec`) of
`l² · weight_l · quasiSoftmax(|l|) + dl² · weight_dl + ddl² · weight_ddl`,
with `l, dl, ddl` the curve's 0th/1st/2nd derivative magnitudes at the
station, the whole sum then multiplied by the resolution, plus the
terminal-level end-offset term when `curr_level = total_level`; the
`safety_cost` is zero and the collision flag is never set. -/
theorem CalculatePathCost_smoothness_formula (env : Env) (tc : TrajectoryCost)
    (curve : Curve) (start_s end_s : ℚ) (curr_level total_level : ℕ)
    (hres : 0 < tc.config.path_resolution) (hse : start_s ≤ end_s) :
    (tc.CalculatePathCost env curve start_s end_s curr_level total_level).smoothness_cost =
      ((List.range (numStrictSamples (end_s - start_s) tc.config.path_resolution)).map
        (fun (k : ℕ) =>
          curve 0 ((k : ℚ) * tc.config.path_resolution) ^ 2 * tc.config.path_l_cost *
            quasiSoftmax env tc.config |curve 0 ((k : ℚ) * tc.config.path_resolution)| +
          |curve 1 ((k : ℚ) * tc.config.path_resolution)| ^ 2 * tc.config.path_dl_cost +
          |curve 2 ((k : ℚ) * tc.config.path_resolution)| ^ 2 * tc.config.path_ddl_cost)).sum *
        tc.config.path_resolution +
      (if curr_level = total_level then
        env.sqrt (curve 0 (end_s - start_s) - tc.init_sl_point.l / 2) *
          tc.config.path_end_l_cost
      else 0) ∧
    (tc.CalculatePathCost env curve start_s end_s curr_level total_level).safety_cost = 0 ∧
    (tc.CalculatePathCost env curve start_s end_s curr_level total_level).has_collision =
      false := by
  refine ⟨?_, ?_, ?_⟩
  · simp only [TrajectoryCost.CalculatePathCost]
    rw [pathCost_foldl_eq env tc curve start_s tc.config.path_resolution
      (numStrictSamples (end_s - start_s) tc.config.path_resolution) 0 false]
    have hfun : (fun (k : ℕ) =>
          curve 0 ((k : ℚ) * tc.config.path_resolution) *
              curve 0 ((k : ℚ) * tc.config.path_resolution) * tc.config.path_l_cost *
            quasiSoftmax env tc.config |curve 0 ((k : ℚ) * tc.config.path_resolution)| +
          |curve 1 ((k : ℚ) * tc.config.path_resolution)| *
              |curve 1 ((k : ℚ) * tc.config.path_resolution)| * tc.config.path_dl_cost +
          |curve 2 ((k : ℚ) * tc.config.path_resolution)| *
              |curve 2 ((k : ℚ) * tc.config.path_resolution)| * tc.config.path_ddl_cost) =
        (fun (k : ℕ) =>
          curve 0 ((k : ℚ) * tc.config.path_resolution) ^ 2 * tc.config.path_l_cost *
            quasiSoftmax env tc.config |curve 0 ((k : ℚ) * tc.config.path_resolution)| +
          |curve 1 ((k : ℚ) * tc.config.path_resolution)| ^ 2 * tc.config.path_dl_cost +
          |curve 2 ((k : ℚ) * tc.config.path_resolution)| ^ 2 * tc.config.path_ddl_cost) := by
      funext k
      ring
    rw [hfun]
    split <;> simp
  · unfold TrajectoryCost.CalculatePathCost
    split <;> rfl
  · unfold TrajectoryCost.CalculatePathCost
    split <;> rfl

/-- Witness for claim C2 at a concrete engine state, curve and span. -/
theorem CalculatePathCost_smoothness_formula_witness :
    (0 : ℚ) < tc0.config.path_resolution ∧ ((0 : ℚ) ≤ 1) ∧
    ((tc0.CalculatePathCost env0 curve0 0 1 0 0).smoothness_cost =
      ((List.range (numStrictSamples ((1 : ℚ) - 0) tc0.config.path_resolution)).map
        (fun (k : ℕ) =>
          curve0 0 ((k : ℚ) * tc0.config.path_resolution) ^ 2 * tc0.config.path_l_cost *
            quasiSoftmax env0 tc0.config |curve0 0 ((k : ℚ) * tc0.config.path_resolution)| +
          |curve0 1 ((k : ℚ) * tc0.config.path_resolution)| ^ 2 * tc0.config.path_dl_cost +
          |curve0 2 ((k : ℚ) * tc0.config.path_resolution)| ^ 2 * tc0.config.path_ddl_cost)).sum *
        tc0.config.path_resolution +
      (if (0 : ℕ) = 0 then
        env0.sqrt (curve0 0 ((1 : ℚ) - 0) - tc0.init_sl_point.l / 2) *
          tc0.config.path_end_l_cost
      else 0) ∧
    (tc0.CalculatePathCost env0 curve0 0 1 0 0).safety_cost = 0 ∧
    (tc0.CalculatePathCost env0 curve0 0 1 0 0).has_collision = false) :=
  ⟨by norm_num [tc0, cfg1], by norm_num,
   CalculatePathCost_smoothness_formula env0 tc0 curve0 0 1 0 0
     (by norm_num [tc0, cfg1]) (by norm_num)⟩

/-- Claim C3: the end-offset penalty
`sqrt(end_l - init_l / 2) · path_end_l_cost` is added to the smoothness cost
exactly when `curr_level = total_level`, after the resolution scaling: any two
invocations at non-terminal levels return identical costs (the term
contributes nothing), and a terminal invocation exceeds a non-terminal one by
exactly that term. -/
theorem CalculatePathCost_terminal_term (env : Env) (tc : TrajectoryCost)
    (curve : Curve) (start_s end_s : ℚ) (curr_level total_level : ℕ) :
    (curr_level ≠ total_level → ∀ curr_level2 total_level2 : ℕ,
      curr_level2 ≠ total_level2 →
        tc.CalculatePathCost env curve start_s end_s curr_level total_level =
        tc.CalculatePathCost env curve start_s end_s curr_level2 total_level2) ∧
    (curr_level = total_level →
      (tc.CalculatePathCost env curve start_s end_s curr_level total_level).smoothness_cost =
        (tc.CalculatePathCost env curve start_s end_s 0 1).smoothness_cost +
          env.sqrt (curve 0 (end_s - start_s) - tc.init_sl_point.l / 2) *
            tc.config.path_end_l_cost) := by
  constructor
  · intro h curr_level2 total_level2 h2
    simp only [TrajectoryCost.CalculatePathCost, if_neg h, if_neg h2]
  · intro h
    simp only [TrajectoryCost.CalculatePathCost, if_pos h,
      if_neg (show ¬ (0 : ℕ) = 1 by norm_num)]

/-- The dynamic-cost loop over an index list accumulates exactly the
per-index safety sums of the indices kept before the first station above
`end_s` (the break) and not below `start_s` (the skip), provided
`start_s ≤ end_s`. -/
theorem dynamicLoop_safety_eq (env : Env) (tc : TrajectoryCost)
    (curve : Curve) (start_s end_s : ℚ) (h : start_s ≤ end_s) :
    ∀ (l : List ℕ) (acc : ComparableCost),
      (dynamicLoop env tc curve start_s end_s l acc).safety_cost =
        acc.safety_cost +
          (((l.takeWhile (fun i => decide (tc.stationAt i ≤ end_s))).filter
              (fun i => decide (start_s ≤ tc.stationAt i))).map
            (fun i => dynStepSafety env tc curve start_s i)).sum := by
  intro l
  induction l with
  | nil => intro acc; simp [dynamicLoop]
  | cons i rest ih =>
    intro acc
    show (if tc.stationAt i < start_s then
          dynamicLoop env tc curve start_s end_s rest acc
        else if tc.stationAt i > end_s then acc
        else dynamicLoop env tc curve start_s end_s rest
          (tc.dynamic_obstacle_boxes.foldl
            (fun c traj => c.add (tc.GetCostBetweenObsBoxes env
              (tc.egoBoxAt env curve start_s i) (traj.getD i Box2d.zero))) acc)).safety_cost
        = _
    split
    · rename_i h1
      have hle : tc.stationAt i ≤ end_s := le_trans (le_of_lt h1) h
      have hns : ¬ start_s ≤ tc.stationAt i := not_le.mpr h1
      rw [ih acc]
      simp [List.takeWhile_cons, List.filter_cons, hle, hns]
    · rename_i h1
      split
      · rename_i h2
        have hnle : ¬ tc.stationAt i ≤ end_s := not_le.mpr h2
        simp [List.takeWhile_cons, hnle]
      · rename_i h2
        have hle : tc.stationAt i ≤ end_s := not_lt.mp h2
        have hge : start_s ≤ tc.stationAt i := not_lt.mp h1
        rw [ih _]
        rw [foldl_add_safety
          (fun traj => tc.GetCostBetweenObsBoxes env
            (tc.egoBoxAt env curve start_s i) (traj.getD i Box2d.zero))
          tc.dynamic_obstacle_boxes acc]
        simp [List.takeWhile_cons, List.filter_cons, hle, hge, dynStepSafety]
        ring

/-- Claim C6: `CalculateDynamicObstacleCost` walks the time indices
`0, ..., num_of_time_stamps - 1` (index `i` standing for time
`i · eval_time_interval`, the station being the interpolated speed-profile
station plus the initial station), skipping indices whose station is below
`start_s`, terminating at the first station above `end_s`, and at each
evaluated index accumulating `dynStepSafety` — the ego footprint at that
index against every cached obstacle trajectory's footprint at the same
index `i`; the accumulated safety cost is finally scaled by
`eval_time_interval · 1e-6`. -/
theorem CalculateDynamicObstacleCost_loop (env : Env) (tc : TrajectoryCost)
    (curve : Curve) (start_s end_s : ℚ) (h : start_s ≤ end_s) :
    (tc.CalculateDynamicObstacleCost env curve start_s end_s).safety_cost =
      ((((List.range tc.num_of_time_stamps).takeWhile
          (fun i => decide (tc.stationAt i ≤ end_s))).filter
          (fun i => decide (start_s ≤ tc.stationAt i))).map
        (fun i => dynStepSafety env tc curve start_s i)).sum *
      (tc.config.eval_time_interval * (1 / 1000000)) := by
  unfold TrajectoryCost.CalculateDynamicObstacleCost
  split
  · rename_i hempty
    have hboxes : tc.dynamic_obstacle_boxes = [] := by
      simpa [List.isEmpty_iff] using hempty
    simp [ComparableCost.zero, dynStepSafety, hboxes]
  · show (dynamicLoop env tc curve start_s end_s
        (List.range tc.num_of_time_stamps) ComparableCost.zero).safety_cost *
      (tc.config.eval_time_interval * (1 / 1000000)) = _
    rw [dynamicLoop_safety_eq env tc curve start_s end_s h
      (List.range tc.num_of_time_stamps) ComparableCost.zero]
    simp [ComparableCost.zero]

/-- Witness for claim C6 at a concrete engine state, curve and span. -/
theorem CalculateDynamicObstacleCost_loop_witness :
    ((0 : ℚ) ≤ 1) ∧
    (tc0.CalculateDynamicObstacleCost env0 curve0 0 1).safety_cost =
      ((((List.range tc0.num_of_time_stamps).takeWhile
          (fun i => decide (tc0.stationAt i ≤ (1 : ℚ)))).filter
          (fun i => decide ((0 : ℚ) ≤ tc0.stationAt i))).map
        (fun i => dynStepSafety env0 tc0 curve0 0 i)).sum *
      (tc0.config.eval_time_interval * (1 / 1000000)) :=
  ⟨by norm_num,
   CalculateDynamicObstacleCost_loop env0 tc0 curve0 0 1 (by norm_num)⟩

/-- One preclassification step either leaves the dynamic cache unchanged or
appends exactly the time-indexed expanded footprint sequence of the obstacle
at hand. -/
theorem classifyObstacle_snd (cfg : DpPolyPathConfig) (fl : PlanningFlags)
    (vp : VehicleParam) (init : SLPoint) (num : ℕ)
    (acc : List SLBoundary × List (List Box2d)) (ob : Obstacle) :
    (classifyObstacle cfg fl vp init num acc ob).2 = acc.2 ∨
    (classifyObstacle cfg fl vp init num acc ob).2 = acc.2 ++
      [(List.range (num + 1)).map
        (fun (t : ℕ) => expandObstacleBox (ob.boundingBoxAtTime
          ((t : ℚ) * cfg.eval_time_interval)))] := by
  simp only [classifyObstacle]
  repeat' split
  all_goals simp

/-- Every member of the dynamic cache built by the preclassification fold is
either already in the initial accumulator or the footprint sequence of one of
the folded obstacles. -/
theorem classify_foldl_dyn_mem (cfg : DpPolyPathConfig) (fl : PlanningFlags)
    (vp : VehicleParam) (init : SLPoint) (num : ℕ) :
    ∀ (l : List Obstacle) (acc : List SLBoundary × List (List Box2d))
      (traj : List Box2d),
      traj ∈ (l.foldl (classifyObstacle cfg fl vp init num) acc).2 →
      traj ∈ acc.2 ∨ ∃ ob ∈ l, traj = (List.range (num + 1)).map
        (fun (t : ℕ) => expandObstacleBox (ob.boundingBoxAtTime
          ((t : ℚ) * cfg.eval_time_interval))) := by
  intro l
  induction l with
  | nil => intro acc traj htraj; exact Or.inl htraj
  | cons ob l ih =>
    intro acc traj htraj
    rw [List.foldl_cons] at htraj
    rcases ih (classifyObstacle cfg fl vp init num acc ob) traj htraj with
      hmem | ⟨ob2, hob2, hshape⟩
    · rcases classifyObstacle_snd cfg fl vp init num acc ob with heq | heq
      · exact Or.inl (heq ▸ hmem)
      · rw [heq] at hmem
        rcases List.mem_append.mp hmem with hin | hin
        · exact Or.inl hin
        · exact Or.inr ⟨ob, List.mem_cons_self _ _, by simpa using hin⟩
    · exact Or.inr ⟨ob2, List.mem_cons_of_mem _ hob2, hshape⟩

/-- Claim C7: after construction, `num_of_time_stamps` equals
`floor(min(speed profile total time, prediction horizon) / eval_time_interval)`
and every trajectory in the dynamic obstacle cache has exactly
`num_of_time_stamps + 1` entries, entry `t` being the source obstacle's
predicted bounding box at time `t · eval_time_interval` expanded by exactly
0.5 in both length and width (`expandObstacleBox`), so index `t` is
time-aligned across all cached obstacles. (The embedding is purely
functional, so the caches are by construction never mutated afterwards.) -/
theorem constructor_dynamic_cache_invariant (cfg : DpPolyPathConfig)
    (fl : PlanningFlags) (rl : ReferenceLine) (icl : Bool)
    (obstacles : List Obstacle) (vp : VehicleParam) (speed : SpeedData)
    (init : SLPoint) (adcB : SLBoundary) :
    (TrajectoryCost.construct cfg fl rl icl obstacles vp speed init
        adcB).num_of_time_stamps =
      (Int.floor (min speed.totalTime fl.prediction_total_time /
        cfg.eval_time_interval)).toNat ∧
    ∀ traj ∈ (TrajectoryCost.construct cfg fl rl icl obstacles vp speed init
        adcB).dynamic_obstacle_boxes,
      traj.length = (TrajectoryCost.construct cfg fl rl icl obstacles vp speed
          init adcB).num_of_time_stamps + 1 ∧
      ∃ ob ∈ obstacles, ∀ t : ℕ,
        t ≤ (TrajectoryCost.construct cfg fl rl icl obstacles vp speed init
          adcB).num_of_time_stamps →
        traj.getD t Box2d.zero =
          expandObstacleBox (ob.boundingBoxAtTime
            ((t : ℚ) * cfg.eval_time_interval)) := by
  constructor
  · rfl
  · intro traj htraj
    have hmem := classify_foldl_dyn_mem cfg fl vp init
      ((Int.floor (min speed.totalTime fl.prediction_total_time /
        cfg.eval_time_interval)).toNat) obstacles ([], []) traj htraj
    rcases hmem with hin | ⟨ob, hob, hshape⟩
    · simp at hin
    · constructor
      · rw [hshape]
        simp [TrajectoryCost.construct]
      · refine ⟨ob, hob, ?_⟩
        intro t ht
        rw [hshape]
        have htlt : t < (Int.floor (min speed.totalTime fl.prediction_total_time /
            cfg.eval_time_interval)).toNat + 1 := Nat.lt_succ_of_le ht
        rw [List.getD_eq_getElem?_getD, List.getElem?_map,
          List.getElem?_range htlt]
        rfl
